import Mathlib

/-!
Shallow embedding of the hot-update orchestration engine of
`src/hot.dev.js` (react-hot-loader). The single provided source file
implements: the update-trigger entry point `updateInstances`, the deep-update
task with its bounded tail-update poll `checkTailUpdates`, the failback
deadline timer `chargeFailbackTimer` / `clearFailbackTimer`, the registration
entry point `hot`, and the proxy lifecycle (`componentDidMount`,
`componentWillUnmount`).

Collaborators imported by the source file from modules not included in the
provided sources (`global/generation`, `utils/runQueue`, `global/modules`,
`errorReporter`, `logger`) are modelled from the spec where needed; each such
definition carries a doc comment starting with `Modelled from the spec:`.

Asynchronous behaviour (queue tasks, `setTimeout` callbacks) is embedded as
explicit event traces: running an entry point produces the final state of the
process-wide mutable data together with the ordered list of observable events
its tasks perform.
-/

/-- A JavaScript runtime value, as far as the orchestrator inspects one:
`updateInstances(possibleError)` tests `possibleError && possibleError
instanceof Error`, so truthiness and Error-instance-ness are the only
observations made. -/
inductive JSValue where
  | undef
  | nullv
  | boolv (b : Bool)
  | numv (n : Int)
  | strv (s : String)
  | errorObj (msg : String)
  | obj (tag : String)
  deriving DecidableEq, Repr

/-- JavaScript truthiness of a value (`undefined`, `null`, `false`, `0` and
the empty string are falsy; objects, including Error objects, are truthy). -/
def truthy : JSValue → Bool
  | .undef => false
  | .nullv => false
  | .boolv b => b
  | .numv n => n != 0
  | .strv s => s != ""
  | .errorObj _ => true
  | .obj _ => true

/-- The JavaScript test `v instanceof Error`: true exactly for Error objects. -/
def instanceOfError : JSValue → Bool
  | .errorObj _ => true
  | _ => false

/-- Observable events performed by the orchestrator's tasks, in order.
Each constructor corresponds to one effectful line of `src/hot.dev.js`:
- `consoleErrorVal e` : `console.error(possibleError)` (line 49);
- `enqueueRequireTask` : `runInRequireQueue(...)` receives the reload task
  (line 87);
- `requireCall` : `requireIndirect(moduleId)` (line 91);
- `consoleErrorLoad` : the catch-block logging of a reload exception
  (lines 93-94);
- `reloadSettled` : the promise returned by the require-queue task settles,
  triggering `.then(deepUpdate)` (line 96);
- `enqueueRenderTask` : `runInRenderQueue(...)` receives the deep-update task
  (line 57);
- `genEnter` : `enterHotUpdate()` (line 58);
- `forceUpd i` : `inst.forceUpdate()` on registered instance `i` (line 61);
- `tailWait ms` : the `setTimeout(..., 16)` delay of one tail-poll attempt
  (lines 66, 78);
- `tailWarn` : the out-of-bound-update warning (line 71);
- `tailRerun` : the recursive `deepUpdate()` call issued by the tail check
  (line 74), recorded as an event rather than expanded;
- `clearExc` : `clearExceptions()` (line 111). -/
inductive Ev where
  | consoleErrorVal (e : JSValue)
  | enqueueRequireTask (moduleId : String)
  | requireCall (moduleId : String)
  | consoleErrorLoad (moduleId : String)
  | reloadSettled (moduleId : String)
  | enqueueRenderTask (moduleId : String)
  | genEnter
  | forceUpd (inst : Nat)
  | tailWait (ms : Nat)
  | tailWarn
  | tailRerun
  | clearExc
  deriving DecidableEq, Repr

/-- The configuration object as consumed by the source: only
`configuration.trackTailUpdates` is read (line 63). -/
structure Config where
  trackTailUpdates : Bool
  deriving DecidableEq, Repr

/-- The process-wide mutable data the deep update reads and writes:
the hot generation counter and the module's registered instance list.

`generation` : Modelled from the spec: Generation Tracker (spec 4.3) — the
source imports `enterHotUpdate` / `getHotGeneration` from
`global/generation`, which is not among the provided sources; per the spec,
`enter()` increments the process-wide counter, `current()` returns it.

`instances` : the `module.instances` array of the `ModuleRecord` returned by
`hotModule(moduleId)` (spec 4.2 Instance Registry, `global/modules` not among
the provided sources); instances are identified by opaque numeric handles. -/
structure HotState where
  generation : Nat
  instances : List Nat
  deriving DecidableEq, Repr

/-- One tail-poll chain of a deep-update cycle, translated from
`checkTailUpdates` (source lines 65-79).  `gen` is the epoch captured by the
enclosing deep update; `obs k` is the value `getHotGeneration()` returns at
the `k`-th 16ms tick (an environment parameter: other cycles may bump the
counter between ticks); `runLimit` is the loop-carried counter (starts 0).
Each attempt waits 16ms (`Ev.tailWait 16`), then compares; on mismatch it
warns and issues one recursive `deepUpdate()` (`Ev.tailRerun`) and the chain
ends; on match it recurses only while `++runLimit < 5`. -/
def checkTailUpdates (gen : Nat) (obs : Nat → Nat) (k runLimit : Nat) :
    List Ev :=
  Ev.tailWait 16 ::
    (if obs k ≠ gen then
      [Ev.tailWarn, Ev.tailRerun]
    else if h : runLimit + 1 < 5 then
      checkTailUpdates gen obs (k + 1) (runLimit + 1)
    else
      [])
termination_by 5 - runLimit
decreasing_by omega

/-- The body of the deep-update task (source lines 57-82), i.e. the closure
handed to `runInRenderQueue`: `enterHotUpdate()`, capture
`gen = getHotGeneration()`, `module.instances.forEach(inst =>
inst.forceUpdate())`, then, if `configuration.trackTailUpdates`, start the
tail-poll chain.  Returns the updated state and the task's event trace. -/
def deepUpdateBody (cfg : Config) (st : HotState) (obs : Nat → Nat) :
    HotState × List Ev :=
  let g := st.generation + 1
  let st1 : HotState := { st with generation := g }
  (st1,
    Ev.genEnter :: (st.instances.map Ev.forceUpd ++
      (if cfg.trackTailUpdates then checkTailUpdates g obs 0 0 else [])))

/-- The update-trigger entry point `updateInstances(possibleError)` (source
lines 47-97), executed to completion for a single trigger with both queues
idle.  Modelled from the spec: Task Queue (spec 4.1) — `createQueue` lives in
`utils/runQueue`, not among the provided sources; per the spec, enqueuing on
an idle queue starts the task immediately and the returned handle resolves
after the task settles, so for a single trigger the reload task body runs,
settles (even if `requireIndirect` threw: the exception is caught and logged
in the task), and only then is the deep-update task enqueued on the render
queue and run.  `requireThrows` is the environment's choice of whether the
defensive `requireIndirect(moduleId)` throws. -/
def updateInstances (cfg : Config) (moduleId : String) (requireThrows : Bool)
    (st : HotState) (obs : Nat → Nat) (possibleError : JSValue) :
    HotState × List Ev :=
  if truthy possibleError && instanceOfError possibleError then
    (st, [Ev.consoleErrorVal possibleError])
  else
    let reloadEvs :=
      [Ev.enqueueRequireTask moduleId, Ev.requireCall moduleId] ++
        (if requireThrows then [Ev.consoleErrorLoad moduleId] else []) ++
        [Ev.reloadSettled moduleId]
    let r := deepUpdateBody cfg st obs
    (r.1, reloadEvs ++ Ev.enqueueRenderTask moduleId :: r.2)

/-- The status handler installed by `makeHotExport` (source lines 108-114):
on `status === 'apply'` it calls `clearExceptions()` then `updateInstances()`
with no argument (`undefined`); on any other status it does nothing. -/
def statusHandlerRun (cfg : Config) (moduleId : String) (requireThrows : Bool)
    (st : HotState) (obs : Nat → Nat) (status : String) : HotState × List Ev :=
  if status = "apply" then
    let r := updateInstances cfg moduleId requireThrows st obs JSValue.undef
    (r.1, Ev.clearExc :: r.2)
  else
    (st, [])

/-- The condition under which `makeHotExport` installs that status handler
(source lines 99-116): `sourceModule.hot` is present, `hot.addStatusHandler`
is present, and `hot.status()` is "idle" at registration time. -/
def statusHandlerInstalled (hasHot hasAddStatusHandler : Bool)
    (initialStatus : String) : Bool :=
  hasHot && hasAddStatusHandler && (initialStatus == "idle")

/-- The message built by the failback timer's callback (source line 21); it is
both logged via `logger.error` and reported via `logException` with a
`toString` returning exactly this message. -/
def failbackMessage (id lastOpened : String) : String :=
  "hot update failed for module \"" ++ id ++
    "\". Last file processed: \"" ++ lastOpened ++ "\"."

/-- The timer armed by `chargeFailbackTimer` (source lines 19-27): a one-shot
`setTimeout` with a fixed 100ms delay.  Modelled from the spec: Deadline
Timer (spec 4.4) — `setTimeout` / `clearTimeout` are host primitives; per the
spec, `start(durationMs, onFire)` schedules `onFire` once, and `cancel`
suppresses a pending firing. -/
structure FailbackTimer where
  delayMs : Nat
  armed : Bool
  deriving DecidableEq, Repr

/-- `chargeFailbackTimer(id)` (source lines 19-27, called at source line
149): arms the one-shot 100ms timer. -/
def chargeFailbackTimer : FailbackTimer :=
  { delayMs := 100, armed := true }

/-- `clearFailbackTimer(timerId)` (source line 29): cancels the timer;
canceling an already-fired or already-canceled timer is a no-op on the rest
of the state. -/
def clearFailbackTimer (t : FailbackTimer) : FailbackTimer :=
  { t with armed := false }

/-- External events driving one `hot()` registration after construction:
either the returned export-wrapping function is invoked (with the display
name of the component it is given), or the timer's 100ms deadline elapses. -/
inductive RegEvent where
  | invokeWrapper (componentName : String)
  | deadlineElapse
  deriving DecidableEq, Repr

/-- State of one `hot()` registration (source lines 149-200): the failback
timer, the per-registration `firstHotRegistered` flag (source line 150), the
list of `reactHotLoader.register` calls made (component display names, source
line 164), the `logger.error` log, the `logException` report sink (spec 6:
error-reporting collaborator, `errorReporter` not among the provided
sources), and the number of wrapped higher-order components returned. -/
structure RegState where
  timer : FailbackTimer
  firstHotRegistered : Bool
  registerCalls : List String
  errorLogs : List String
  exceptionReports : List String
  hocsReturned : Nat
  deriving DecidableEq, Repr

/-- Registration state right after `hot(sourceModule)` returns (source lines
149-155): timer armed, `firstHotRegistered = false`, nothing logged yet. -/
def regInit : RegState :=
  { timer := chargeFailbackTimer
    firstHotRegistered := false
    registerCalls := []
    errorLogs := []
    exceptionReports := []
    hocsReturned := 0 }

/-- One step of the registration state machine.

`invokeWrapper name` is the body of the returned export-wrapping function
(source lines 155-199): it always calls `clearFailbackTimer` (line 157),
registers the wrapped component only if `firstHotRegistered` is still false
(lines 160-165), and always returns a wrapped higher-order component via
`createHoc` (lines 168-199).

`deadlineElapse` is the 100ms deadline passing: if the timer is still armed
its callback fires once (source lines 20-27), logging the failback message
and reporting exactly one exception; a fired or canceled timer does
nothing. -/
def regStep (id lastOpened : String) (st : RegState) : RegEvent → RegState
  | .invokeWrapper name =>
    let st1 := { st with timer := clearFailbackTimer st.timer }
    let st2 :=
      if st1.firstHotRegistered then st1
      else
        { st1 with
            firstHotRegistered := true
            registerCalls := st1.registerCalls ++ [name] }
    { st2 with hocsReturned := st2.hocsReturned + 1 }
  | .deadlineElapse =>
    if st.timer.armed then
      { st with
          timer := { st.timer with armed := false }
          errorLogs := st.errorLogs ++ [failbackMessage id lastOpened]
          exceptionReports :=
            st.exceptionReports ++ [failbackMessage id lastOpened] }
    else st

/-- Run one registration through a sequence of external events. -/
def regRun (id lastOpened : String) (evs : List RegEvent) : RegState :=
  evs.foldl (regStep id lastOpened) regInit

/-- Number of invocations of the export-wrapping function in an event list. -/
def invokeCount (evs : List RegEvent) : Nat :=
  (evs.filter fun e => match e with
    | .invokeWrapper _ => true
    | .deadlineElapse => false).length

/-- The fields of a host module object that `hot` consults to resolve the
module id (source line 134): `sourceModule.id || sourceModule.i ||
sourceModule.filename`.  A field holds `none` when absent (`undefined`). -/
structure SourceModuleObj where
  id : Option String
  i : Option String
  filename : Option String
  deriving DecidableEq, Repr

/-- JavaScript truthiness of a string-or-undefined field: absent and the
empty string are falsy. -/
def truthyStr : Option String → Bool
  | some s => s != ""
  | none => false

/-- The JavaScript `||` over string-or-undefined operands: the left operand
if truthy, else the right. -/
def jsOrStr (a b : Option String) : Option String :=
  if truthyStr a then a else b

/-- The module-id resolution of `hot` (source line 134):
`sourceModule.id || sourceModule.i || sourceModule.filename`. -/
def resolveModuleId (m : SourceModuleObj) : Option String :=
  jsOrStr m.id (jsOrStr m.i m.filename)

/-- The construction-time part of `hot(sourceModule)` (source lines
129-138): with no argument (`!sourceModule`) it throws; with an argument
whose resolved module id is falsy it throws after a `console.error`;
otherwise construction proceeds and the export-wrapping function is
returned (represented by `.ok` carrying the resolved id).  Throwing is
embedded as `Except.error` carrying the thrown message. -/
def hotConstruct (m : Option SourceModuleObj) : Except String String :=
  match m with
  | none =>
    .error "React-hot-loader: `hot` was called without any argument provided"
  | some sm =>
    match resolveModuleId sm with
    | some mid =>
      if mid = "" then
        .error
          "React-hot-loader: `hot` could not find the `name` of the the `module` you have provided"
      else
        .ok mid
    | none =>
      .error
        "React-hot-loader: `hot` could not find the `name` of the the `module` you have provided"

/-- The misuse warning logged on unmount while the module is open (source
lines 180-185). -/
def unmountWarning (moduleId componentName : String) : String :=
  "React-hot-loader: Detected AppContainer unmount on module '" ++ moduleId ++
    "' update.\n" ++
    "Did you use \"hot(" ++ componentName ++
    ")\" and \"ReactDOM.render()\" in the same file?\n" ++
    "\"hot(" ++ componentName ++ ")\" shall only be used as export.\n" ++
    "Please refer to \"Getting Started\" (https://github.com/gaearon/react-hot-loader/)."

/-- `componentWillUnmount` of the exported proxy component (source lines
177-188): if `isModuleOpened(sourceModule)` it logs the misuse warning
naming the wrapped component; regardless, it removes `this` (by identity)
from `module.instances` via `filter(a => a !== this)`.  Returns the new
instance list and the log entries produced.  `isModuleOpened` is a query on
`global/modules` (not among the provided sources); its boolean answer is
taken as a parameter. -/
def componentWillUnmount (moduleId componentName : String)
    (moduleOpened : Bool) (self : Nat) (instances : List Nat) :
    List Nat × List String :=
  (instances.filter fun a => a ≠ self,
    if moduleOpened then [unmountWarning moduleId componentName] else [])

/-! ## Helper lemmas -/

theorem checkTail_mem (gen : Nat) (obs : Nat → Nat) (k r : Nat) :
    ∀ x ∈ checkTailUpdates gen obs k r,
      x = Ev.tailWait 16 ∨ x = Ev.tailWarn ∨ x = Ev.tailRerun := by
  induction k, r using checkTailUpdates.induct gen obs with
  | _ k r ih =>
    intro x hx
    rw [checkTailUpdates] at hx
    rcases List.mem_cons.mp hx with h | h
    · exact Or.inl h
    · split at h
      · simp only [List.mem_cons, List.not_mem_nil, or_false] at h
        rcases h with h | h
        · exact Or.inr (Or.inl h)
        · exact Or.inr (Or.inr h)
      · split at h
        · exact ih (by omega) x h
        · simp at h

theorem checkTail_count_other (gen : Nat) (obs : Nat → Nat) (k r : Nat)
    (x : Ev) (h1 : x ≠ Ev.tailWait 16) (h2 : x ≠ Ev.tailWarn)
    (h3 : x ≠ Ev.tailRerun) : (checkTailUpdates gen obs k r).count x = 0 := by
  rw [List.count_eq_zero]
  intro hm
  rcases checkTail_mem gen obs k r x hm with h | h | h
  · exact h1 h
  · exact h2 h
  · exact h3 h

theorem checkTail_count_wait_le (gen : Nat) (obs : Nat → Nat) (k r : Nat)
    (hr : r < 5) :
    (checkTailUpdates gen obs k r).count (Ev.tailWait 16) ≤ 5 - r := by
  induction k, r using checkTailUpdates.induct gen obs with
  | _ k r ih =>
    rw [checkTailUpdates]
    split
    · simp only [List.count_cons, List.count_nil]
      simp
      omega
    · split
      · rename_i hlt
        have := ih hlt (by omega)
        simp only [List.count_cons]
        simp
        omega
      · simp only [List.count_cons, List.count_nil]
        simp
        omega

theorem checkTail_all_eq (gen : Nat) (obs : Nat → Nat) (k r : Nat)
    (hr : r < 5) (hobs : ∀ j, j < 5 - r → obs (k + j) = gen) :
    checkTailUpdates gen obs k r = List.replicate (5 - r) (Ev.tailWait 16) := by
  induction k, r using checkTailUpdates.induct gen obs with
  | _ k r ih =>
    rw [checkTailUpdates]
    have h0 : obs k = gen := by
      have := hobs 0 (by omega)
      simpa using this
    rw [if_neg (by simp [h0])]
    split
    · rename_i hlt
      have hrec := ih hlt (by omega) ?_
      · rw [hrec]
        have : 5 - r = (5 - (r + 1)) + 1 := by omega
        rw [this, List.replicate_succ]
      · intro j hj
        have := hobs (j + 1) (by omega)
        convert this using 2
        omega
    · rename_i hge
      have : 5 - r = 1 := by omega
      rw [this]
      rfl

theorem checkTail_first_diff (gen : Nat) (obs : Nat → Nat) (k r : Nat) :
    ∀ j, r < 5 → j < 5 - r → obs (k + j) ≠ gen →
      (∀ i, i < j → obs (k + i) = gen) →
      checkTailUpdates gen obs k r =
        List.replicate j (Ev.tailWait 16) ++
          [Ev.tailWait 16, Ev.tailWarn, Ev.tailRerun] := by
  induction k, r using checkTailUpdates.induct gen obs with
  | _ k r ih =>
    intro j hr hj hdiff heq
    rw [checkTailUpdates]
    match j, hj, hdiff, heq with
    | 0, _, hdiff, _ =>
      have h0 : obs k ≠ gen := by simpa using hdiff
      rw [if_pos (by simpa using h0)]
      rfl
    | j + 1, hj, hdiff, heq =>
      have h0 : obs k = gen := by
        have := heq 0 (by omega)
        simpa using this
      rw [if_neg (by simp [h0])]
      have hlt : r + 1 < 5 := by omega
      rw [dif_pos hlt]
      have hrec := ih hlt j hlt (by omega) ?_ ?_
      · rw [hrec, List.replicate_succ]
        rfl
      · have := hdiff
        convert this using 2
        omega
      · intro i hi
        have := heq (i + 1) (by omega)
        convert this using 2
        omega

theorem deepUpdateBody_snd (cfg : Config) (st : HotState) (obs : Nat → Nat) :
    (deepUpdateBody cfg st obs).2 =
      Ev.genEnter :: (st.instances.map Ev.forceUpd ++
        (if cfg.trackTailUpdates then
          checkTailUpdates (st.generation + 1) obs 0 0
        else [])) := rfl

theorem deepUpdateBody_generation (cfg : Config) (st : HotState)
    (obs : Nat → Nat) :
    (deepUpdateBody cfg st obs).1.generation = st.generation + 1 := rfl

theorem forceUpd_injective : Function.Injective Ev.forceUpd := by
  intro a b h
  cases h
  rfl

theorem updateInstances_eq_of_not_error (cfg : Config) (mid : String)
    (rt : Bool) (st : HotState) (obs : Nat → Nat) (e : JSValue)
    (h : (truthy e && instanceOfError e) = false) :
    updateInstances cfg mid rt st obs e =
      ((deepUpdateBody cfg st obs).1,
        ([Ev.enqueueRequireTask mid, Ev.requireCall mid] ++
            (if rt then [Ev.consoleErrorLoad mid] else []) ++
            [Ev.reloadSettled mid]) ++
          Ev.enqueueRenderTask mid :: (deepUpdateBody cfg st obs).2) := by
  simp [updateInstances, h]

/-! ## Claim theorems -/

/-- C1: when `updateInstances(possibleError)` receives a genuine error value
(truthy and an `instanceof Error`), it logs the error and returns
immediately: the trace is exactly the `console.error` of the error — no task
is enqueued on the require or render queue, no registered instance receives a
force-re-render, and the Generation counter is left unchanged. -/
theorem C1_error_abort (cfg : Config) (mid : String) (rt : Bool)
    (st : HotState) (obs : Nat → Nat) (e : JSValue)
    (h : (truthy e && instanceOfError e) = true) :
    updateInstances cfg mid rt st obs e = (st, [Ev.consoleErrorVal e]) ∧
    (updateInstances cfg mid rt st obs e).1.generation = st.generation ∧
    Ev.consoleErrorVal e ∈ (updateInstances cfg mid rt st obs e).2 ∧
    (∀ i : Nat, Ev.forceUpd i ∉ (updateInstances cfg mid rt st obs e).2) ∧
    (∀ m : String,
      Ev.enqueueRequireTask m ∉ (updateInstances cfg mid rt st obs e).2) ∧
    (∀ m : String,
      Ev.enqueueRenderTask m ∉ (updateInstances cfg mid rt st obs e).2) ∧
    Ev.genEnter ∉ (updateInstances cfg mid rt st obs e).2 := by
  have he : updateInstances cfg mid rt st obs e =
      (st, [Ev.consoleErrorVal e]) := by
    simp [updateInstances, h]
  refine ⟨he, ?_, ?_, ?_, ?_, ?_, ?_⟩ <;> simp [he]

/-- C1 witness: a concrete genuine error aborts the concrete cycle. -/
theorem C1_error_abort_witness :
    updateInstances ⟨true⟩ "A" false ⟨3, [1, 2]⟩ (fun _ => 3)
        (JSValue.errorObj "boom") =
      (⟨3, [1, 2]⟩, [Ev.consoleErrorVal (JSValue.errorObj "boom")]) :=
  (C1_error_abort ⟨true⟩ "A" false ⟨3, [1, 2]⟩ (fun _ => 3)
    (JSValue.errorObj "boom") (by decide)).1

/-- C9: when `possibleError` is truthy but not an `instanceof Error`, the
error-abort branch of `updateInstances` is not taken: the run is identical
(same state, same trace) to a run with no error argument at all. -/
theorem C9_truthy_non_error_proceeds (cfg : Config) (mid : String)
    (rt : Bool) (st : HotState) (obs : Nat → Nat) (e : JSValue)
    (ht : truthy e = true) (he : instanceOfError e = false) :
    updateInstances cfg mid rt st obs e =
      updateInstances cfg mid rt st obs JSValue.undef := by
  simp [updateInstances, ht, he, truthy]

/-- C9 witness: a truthy string payload behaves exactly like no argument. -/
theorem C9_truthy_non_error_proceeds_witness :
    updateInstances ⟨false⟩ "A" true ⟨0, [5]⟩ (fun _ => 0)
        (JSValue.strv "not an error") =
      updateInstances ⟨false⟩ "A" true ⟨0, [5]⟩ (fun _ => 0) JSValue.undef :=
  C9_truthy_non_error_proceeds ⟨false⟩ "A" true ⟨0, [5]⟩ (fun _ => 0)
    (JSValue.strv "not an error") (by decide) (by decide)

/-- C8: the status handler installed by `makeHotExport` (which is installed
exactly when the module has hot support, `addStatusHandler` exists and the
status was "idle" at registration) reacts to the transition into the "apply"
state by clearing pending exception state and then running precisely the
no-error `updateInstances()` protocol, and does nothing on any other
status value. -/
theorem C8_apply_transition (cfg : Config) (mid : String) (rt : Bool)
    (st : HotState) (obs : Nat → Nat) :
    statusHandlerInstalled true true "idle" = true ∧
    statusHandlerRun cfg mid rt st obs "apply" =
      ((updateInstances cfg mid rt st obs JSValue.undef).1,
        Ev.clearExc :: (updateInstances cfg mid rt st obs JSValue.undef).2) ∧
    (∀ s : String, s ≠ "apply" →
      statusHandlerRun cfg mid rt st obs s = (st, [])) := by
  refine ⟨by decide, rfl, ?_⟩
  intro s hs
  simp [statusHandlerRun, hs]

/-- C8 witness: the handler ignores the "idle" status on a concrete state. -/
theorem C8_apply_transition_witness :
    statusHandlerRun ⟨false⟩ "A" false ⟨0, [1]⟩ (fun _ => 0) "idle" =
      (⟨0, [1]⟩, []) :=
  (C8_apply_transition ⟨false⟩ "A" false ⟨0, [1]⟩ (fun _ => 0)).2.2 "idle"
    (by decide)

/-- C6: `hot(sourceModule)` with a missing module object, or with a module
object from which no module id resolves (all of `id`, `i`, `filename` falsy),
throws immediately to the caller; no export-wrapping function is produced. -/
theorem C6_invalid_registration_throws :
    (hotConstruct none =
      Except.error
        "React-hot-loader: `hot` was called without any argument provided") ∧
    (∀ sm : SourceModuleObj, truthyStr (resolveModuleId sm) = false →
      hotConstruct (some sm) =
        Except.error
          "React-hot-loader: `hot` could not find the `name` of the the `module` you have provided") ∧
    (∀ sm : SourceModuleObj, truthyStr (resolveModuleId sm) = false →
      ∀ mid : String, hotConstruct (some sm) ≠ Except.ok mid) := by
  refine ⟨rfl, ?_, ?_⟩
  · intro sm h
    cases hm : resolveModuleId sm with
    | none => simp [hotConstruct, hm]
    | some s =>
      rw [hm] at h
      simp [truthyStr] at h
      simp [hotConstruct, hm, h]
  · intro sm h mid
    cases hm : resolveModuleId sm with
    | none => simp [hotConstruct, hm]
    | some s =>
      rw [hm] at h
      simp [truthyStr] at h
      simp [hotConstruct, hm, h]

/-- C6 witness: a module object with no `id`, `i` or `filename` makes the
construction throw. -/
theorem C6_invalid_registration_throws_witness :
    hotConstruct (some ⟨none, none, none⟩) =
      Except.error
        "React-hot-loader: `hot` could not find the `name` of the the `module` you have provided" :=
  C6_invalid_registration_throws.2.1 ⟨none, none, none⟩ (by decide)

/-- C7: `componentWillUnmount` removes the unmounting instance (by identity)
from the module's instance collection whether or not the module is flagged
open — the resulting instance list does not depend on the flag, the
unmounting instance is gone, and every other instance keeps its multiplicity
— and it logs exactly one misuse warning (which names the wrapped component)
precisely when the module is flagged open. -/
theorem C7_unmount_removes_and_warns (mid c : String) (opened : Bool)
    (self : Nat) (instances : List Nat) :
    (∀ b : Nat,
      (componentWillUnmount mid c opened self instances).1.count b =
        if b = self then 0 else instances.count b) ∧
    (componentWillUnmount mid c true self instances).1 =
      (componentWillUnmount mid c false self instances).1 ∧
    (componentWillUnmount mid c opened self instances).2.length =
      (if opened then 1 else 0) ∧
    (opened = true →
      (componentWillUnmount mid c opened self instances).2 =
          [unmountWarning mid c] ∧
        ∃ p q : String, unmountWarning mid c = p ++ (c ++ q)) := by
  refine ⟨?_, rfl, ?_, ?_⟩
  · intro b
    by_cases hb : b = self
    · subst hb
      simp [componentWillUnmount, List.count_eq_zero]
    · simp [componentWillUnmount, List.count_filter, hb]
  · cases opened <;> simp [componentWillUnmount]
  · intro ho
    subst ho
    refine ⟨rfl, ?_⟩
    exact ⟨"React-hot-loader: Detected AppContainer unmount on module '" ++
        mid ++ "' update.\n" ++ "Did you use \"hot(",
      ")\" and \"ReactDOM.render()\" in the same file?\n" ++
        "\"hot(" ++ c ++ ")\" shall only be used as export.\n" ++
        "Please refer to \"Getting Started\" (https://github.com/gaearon/react-hot-loader/).",
      by simp [unmountWarning, String.append_assoc]⟩

/-- C7 witness: unmounting instance 2 of [1, 2, 3] while the module is open
removes it and leaves exactly one warning. -/
theorem C7_unmount_removes_and_warns_witness :
    (componentWillUnmount "A" "App" true 2 [1, 2, 3]).2 =
      [unmountWarning "A" "App"] :=
  ((C7_unmount_removes_and_warns "A" "App" true 2 [1, 2, 3]).2.2.2 rfl).1

/-- C3: every error-free `updateInstances` trigger runs one deep-update
cycle: `Generation.enter()` is called (the final Generation is the
pre-trigger value plus one — reconciliation re-runs appear as separate
`tailRerun` events, not expanded here), and every instance registered in the
module's record receives exactly as many force-re-renders as it has
registrations (so each distinctly-registered instance: exactly one). -/
theorem C3_deep_update_cycle (cfg : Config) (mid : String) (rt : Bool)
    (st : HotState) (obs : Nat → Nat) (e : JSValue)
    (h : (truthy e && instanceOfError e) = false) :
    (updateInstances cfg mid rt st obs e).1.generation = st.generation + 1 ∧
    (∀ i : Nat, (updateInstances cfg mid rt st obs e).2.count (Ev.forceUpd i) =
      st.instances.count i) ∧
    Ev.genEnter ∈ (updateInstances cfg mid rt st obs e).2 := by
  rw [updateInstances_eq_of_not_error cfg mid rt st obs e h]
  refine ⟨rfl, ?_, ?_⟩
  · intro i
    have hmap := List.count_map_of_injective st.instances Ev.forceUpd
      forceUpd_injective i
    have htail : (if cfg.trackTailUpdates then
        checkTailUpdates (st.generation + 1) obs 0 0
      else []).count (Ev.forceUpd i) = 0 := by
      cases hc : cfg.trackTailUpdates
      · simp
      · simpa using checkTail_count_other (st.generation + 1) obs 0 0
          (Ev.forceUpd i) (by simp) (by simp) (by simp)
    cases rt <;>
      simp [deepUpdateBody_snd, List.count_append, List.count_cons, hmap,
        htail]
  · simp [deepUpdateBody_snd]

/-- C3 witness: the concrete scenario of the spec — two mounted instances,
one error-free trigger: each receives exactly one force-re-render and the
Generation counter goes from 7 to 8. -/
theorem C3_deep_update_cycle_witness :
    (updateInstances ⟨false⟩ "A" false ⟨7, [1, 2]⟩ (fun _ => 8)
        JSValue.undef).1.generation = 7 + 1 ∧
    (updateInstances ⟨false⟩ "A" false ⟨7, [1, 2]⟩ (fun _ => 8)
        JSValue.undef).2.count (Ev.forceUpd 1) = 1 ∧
    (updateInstances ⟨false⟩ "A" false ⟨7, [1, 2]⟩ (fun _ => 8)
        JSValue.undef).2.count (Ev.forceUpd 2) = 1 := by
  have h := C3_deep_update_cycle ⟨false⟩ "A" false ⟨7, [1, 2]⟩ (fun _ => 8)
    JSValue.undef (by decide)
  refine ⟨h.1, ?_, ?_⟩
  · simpa using h.2.1 1
  · simpa using h.2.1 2

/-- C4: for every error-free `updateInstances` trigger, the deep-update task
is enqueued on the render queue exactly once, strictly after the reload task
has settled (the `reloadSettled` event lies in the prefix before the single
`enqueueRenderTask`), and when the defensive re-require throws, the caught
and logged exception also lies in that prefix — the render task is still
enqueued and its body follows. -/
theorem C4_render_after_reload (cfg : Config) (mid : String) (rt : Bool)
    (st : HotState) (obs : Nat → Nat) (e : JSValue)
    (h : (truthy e && instanceOfError e) = false) :
    ∃ pre : List Ev,
      (updateInstances cfg mid rt st obs e).2 =
          pre ++ Ev.enqueueRenderTask mid :: (deepUpdateBody cfg st obs).2 ∧
      Ev.reloadSettled mid ∈ pre ∧
      Ev.enqueueRenderTask mid ∉ pre ∧
      (rt = true → Ev.consoleErrorLoad mid ∈ pre) ∧
      (updateInstances cfg mid rt st obs e).2.count
        (Ev.enqueueRenderTask mid) = 1 := by
  refine ⟨[Ev.enqueueRequireTask mid, Ev.requireCall mid] ++
      (if rt then [Ev.consoleErrorLoad mid] else []) ++
      [Ev.reloadSettled mid], ?_, ?_, ?_, ?_, ?_⟩
  · rw [updateInstances_eq_of_not_error cfg mid rt st obs e h]
  · cases rt <;> simp
  · cases rt <;> simp
  · intro hrt
    subst hrt
    simp
  · rw [updateInstances_eq_of_not_error cfg mid rt st obs e h]
    have htail : (if cfg.trackTailUpdates then
        checkTailUpdates (st.generation + 1) obs 0 0
      else []).count (Ev.enqueueRenderTask mid) = 0 := by
      cases hc : cfg.trackTailUpdates
      · simp
      · simpa using checkTail_count_other (st.generation + 1) obs 0 0
          (Ev.enqueueRenderTask mid) (by simp) (by simp) (by simp)
    have hmap : (st.instances.map Ev.forceUpd).count
        (Ev.enqueueRenderTask mid) = 0 := by
      rw [List.count_eq_zero]
      intro hm
      simp at hm
    cases rt <;>
      simp [deepUpdateBody_snd, List.count_append, List.count_cons, htail,
        hmap]

/-- C4 witness: with a throwing re-require and a falsy non-error payload the
render task is still enqueued once, after the reload settles. -/
theorem C4_render_after_reload_witness :
    ∃ pre : List Ev,
      (updateInstances ⟨false⟩ "A" true ⟨0, []⟩ (fun _ => 1)
            JSValue.nullv).2 =
          pre ++ Ev.enqueueRenderTask "A" ::
            (deepUpdateBody ⟨false⟩ ⟨0, []⟩ (fun _ => 1)).2 ∧
      Ev.reloadSettled "A" ∈ pre ∧
      Ev.enqueueRenderTask "A" ∉ pre ∧
      (true = true → Ev.consoleErrorLoad "A" ∈ pre) ∧
      (updateInstances ⟨false⟩ "A" true ⟨0, []⟩ (fun _ => 1)
          JSValue.nullv).2.count (Ev.enqueueRenderTask "A") = 1 :=
  C4_render_after_reload ⟨false⟩ "A" true ⟨0, []⟩ (fun _ => 1) JSValue.nullv
    (by decide)

/-- C2: the tail poll of one deep-update cycle (with `trackTailUpdates`
enabled): every attempt waits exactly 16ms; the chain makes at most 5
attempts; if `Generation.current()` matches the captured epoch at every tick
the chain polls exactly 5 times with no warning and no re-run; and if the
first mismatching tick is attempt `j` the chain stops there after `j + 1`
attempts, logging exactly one warning and issuing exactly one deep-update
re-run. -/
theorem C2_tail_poll_bounded (gen : Nat) (obs : Nat → Nat) :
    (∀ ms : Nat, Ev.tailWait ms ∈ checkTailUpdates gen obs 0 0 → ms = 16) ∧
    (checkTailUpdates gen obs 0 0).count (Ev.tailWait 16) ≤ 5 ∧
    ((∀ j, j < 5 → obs j = gen) →
      checkTailUpdates gen obs 0 0 = List.replicate 5 (Ev.tailWait 16) ∧
      (checkTailUpdates gen obs 0 0).count Ev.tailWarn = 0 ∧
      (checkTailUpdates gen obs 0 0).count Ev.tailRerun = 0) ∧
    (∀ j, j < 5 → obs j ≠ gen → (∀ i, i < j → obs i = gen) →
      checkTailUpdates gen obs 0 0 =
        List.replicate j (Ev.tailWait 16) ++
          [Ev.tailWait 16, Ev.tailWarn, Ev.tailRerun] ∧
      (checkTailUpdates gen obs 0 0).count (Ev.tailWait 16) = j + 1 ∧
      (checkTailUpdates gen obs 0 0).count Ev.tailWarn = 1 ∧
      (checkTailUpdates gen obs 0 0).count Ev.tailRerun = 1) := by
  refine ⟨?_, ?_, ?_, ?_⟩
  · intro ms hm
    rcases checkTail_mem gen obs 0 0 _ hm with h | h | h
    · injection h
    · exact absurd h (by simp)
    · exact absurd h (by simp)
  · simpa using checkTail_count_wait_le gen obs 0 0 (by omega)
  · intro hobs
    have heq := checkTail_all_eq gen obs 0 0 (by omega)
      (by intro j hj; simpa using hobs j (by omega))
    refine ⟨by simpa using heq, ?_, ?_⟩ <;>
      simp [heq, List.count_replicate]
  · intro j hj hdiff heqp
    have heq := checkTail_first_diff gen obs 0 0 j (by omega) (by omega)
      (by simpa using hdiff) (by intro i hi; simpa using heqp i hi)
    refine ⟨heq, ?_, ?_, ?_⟩ <;>
      simp [heq, List.count_append, List.count_replicate, List.count_cons]

/-- C2 witness: an observation stream that mismatches at the first tick makes
the chain stop after one attempt with one warning and one re-run. -/
theorem C2_tail_poll_bounded_witness :
    checkTailUpdates 0 (fun k => k + 1) 0 0 =
      [Ev.tailWait 16, Ev.tailWarn, Ev.tailRerun] := by
  have h := (C2_tail_poll_bounded 0 (fun k => k + 1)).2.2.2 0 (by omega)
    (by simp) (by intro i hi; exact absurd hi (by omega))
  simpa using h.1

theorem regStep_deadline_of_unarmed (id last : String) (st : RegState)
    (h : st.timer.armed = false) :
    regStep id last st RegEvent.deadlineElapse = st := by
  simp [regStep, h]

theorem regFoldl_deadline_stable (id last : String) (st : RegState)
    (h : st.timer.armed = false) (n : Nat) :
    List.foldl (regStep id last) st
      (List.replicate n RegEvent.deadlineElapse) = st := by
  induction n with
  | zero => rfl
  | succ n ih =>
    rw [List.replicate_succ, List.foldl_cons,
      regStep_deadline_of_unarmed id last st h]
    exact ih

theorem regStep_invoke_timer (id last : String) (st : RegState) (c : String) :
    (regStep id last st (RegEvent.invokeWrapper c)).timer.armed = false := by
  by_cases h : st.firstHotRegistered <;>
    simp [regStep, clearFailbackTimer, h]

theorem regStep_invoke_hocs (id last : String) (st : RegState) (c : String) :
    (regStep id last st (RegEvent.invokeWrapper c)).hocsReturned =
      st.hocsReturned + 1 := by
  by_cases h : st.firstHotRegistered <;> simp [regStep, h]

theorem invokeCount_cons_invoke (c : String) (t : List RegEvent) :
    invokeCount (RegEvent.invokeWrapper c :: t) = invokeCount t + 1 := by
  simp [invokeCount, List.filter_cons]

theorem invokeCount_cons_deadline (t : List RegEvent) :
    invokeCount (RegEvent.deadlineElapse :: t) = invokeCount t := by
  simp [invokeCount, List.filter_cons]

theorem regFoldl_hocs (id last : String) (evs : List RegEvent) :
    ∀ st : RegState,
      (List.foldl (regStep id last) st evs).hocsReturned =
        st.hocsReturned + invokeCount evs := by
  induction evs with
  | nil =>
    intro st
    simp [invokeCount]
  | cons e t ih =>
    intro st
    cases e with
    | invokeWrapper c =>
      rw [List.foldl_cons, ih, regStep_invoke_hocs, invokeCount_cons_invoke]
      omega
    | deadlineElapse =>
      rw [List.foldl_cons, ih, invokeCount_cons_deadline]
      by_cases h : st.timer.armed <;> simp [regStep, h]

theorem regFoldl_registered (id last : String) (evs : List RegEvent) :
    ∀ st : RegState, st.firstHotRegistered = true →
      (List.foldl (regStep id last) st evs).registerCalls =
          st.registerCalls ∧
        (List.foldl (regStep id last) st evs).firstHotRegistered = true := by
  induction evs with
  | nil =>
    intro st h
    exact ⟨rfl, h⟩
  | cons e t ih =>
    intro st h
    rw [List.foldl_cons]
    cases e with
    | invokeWrapper c =>
      have h1 : (regStep id last st (RegEvent.invokeWrapper c)).registerCalls
          = st.registerCalls := by simp [regStep, h]
      have h2 : (regStep id last st
          (RegEvent.invokeWrapper c)).firstHotRegistered = true := by
        simp [regStep, h]
      obtain ⟨ha, hb⟩ := ih _ h2
      exact ⟨by rw [ha, h1], hb⟩
    | deadlineElapse =>
      have h1 : (regStep id last st RegEvent.deadlineElapse).registerCalls
          = st.registerCalls := by
        by_cases ha : st.timer.armed <;> simp [regStep, ha]
      have h2 : (regStep id last st
          RegEvent.deadlineElapse).firstHotRegistered = true := by
        by_cases ha : st.timer.armed <;> simp [regStep, ha, h]
      obtain ⟨ha, hb⟩ := ih _ h2
      exact ⟨by rw [ha, h1], hb⟩

theorem regFoldl_register_len (id last : String) (evs : List RegEvent) :
    ∀ st : RegState, st.firstHotRegistered = false →
      (List.foldl (regStep id last) st evs).registerCalls.length =
        st.registerCalls.length + min 1 (invokeCount evs) := by
  induction evs with
  | nil =>
    intro st _
    simp [invokeCount]
  | cons e t ih =>
    intro st h
    rw [List.foldl_cons]
    cases e with
    | invokeWrapper c =>
      have h1 : (regStep id last st
          (RegEvent.invokeWrapper c)).firstHotRegistered = true := by
        simp [regStep, h]
      have h2 : (regStep id last st (RegEvent.invokeWrapper c)).registerCalls
          = st.registerCalls ++ [c] := by simp [regStep, h]
      obtain ⟨ha, _⟩ := regFoldl_registered id last t _ h1
      rw [ha, h2, invokeCount_cons_invoke]
      simp
    | deadlineElapse =>
      have h1 : (regStep id last st
          RegEvent.deadlineElapse).firstHotRegistered = false := by
        by_cases ha : st.timer.armed <;> simp [regStep, ha, h]
      have h2 : (regStep id last st RegEvent.deadlineElapse).registerCalls
          = st.registerCalls := by
        by_cases ha : st.timer.armed <;> simp [regStep, ha]
      rw [ih _ h1, h2, invokeCount_cons_deadline]

/-- C5: each `hot()` registration arms a one-shot 100ms deadline timer; if
the export-wrapping function is never invoked, the deadline firing produces
exactly one error log and exactly one exception report (even across repeated
deadline ticks), whose message names both the module id and the last module
opened; and if the wrapping function is invoked first, the timer is canceled
and no report is ever produced. -/
theorem C5_failback_deadline (id last c : String) (n m : Nat) :
    chargeFailbackTimer.delayMs = 100 ∧
    regInit.timer.armed = true ∧
    (regRun id last
        (List.replicate (n + 1) RegEvent.deadlineElapse)).exceptionReports =
      [failbackMessage id last] ∧
    (regRun id last
        (List.replicate (n + 1) RegEvent.deadlineElapse)).errorLogs =
      [failbackMessage id last] ∧
    (∃ p q r : String,
      failbackMessage id last = p ++ (id ++ (q ++ (last ++ r)))) ∧
    (regRun id last (RegEvent.invokeWrapper c ::
        List.replicate m RegEvent.deadlineElapse)).exceptionReports = [] := by
  have hfired : regStep id last regInit RegEvent.deadlineElapse =
      { timer := { delayMs := 100, armed := false }
        firstHotRegistered := false
        registerCalls := []
        errorLogs := [failbackMessage id last]
        exceptionReports := [failbackMessage id last]
        hocsReturned := 0 } := by
    simp [regStep, regInit, chargeFailbackTimer]
  have hrunFired : regRun id last
      (List.replicate (n + 1) RegEvent.deadlineElapse) =
      regStep id last regInit RegEvent.deadlineElapse := by
    rw [regRun, List.replicate_succ, List.foldl_cons]
    exact regFoldl_deadline_stable id last _ (by rw [hfired]) n
  have hinvoked : regStep id last regInit (RegEvent.invokeWrapper c) =
      { timer := { delayMs := 100, armed := false }
        firstHotRegistered := true
        registerCalls := [c]
        errorLogs := []
        exceptionReports := []
        hocsReturned := 1 } := by
    simp [regStep, regInit, chargeFailbackTimer, clearFailbackTimer]
  have hrunInvoked : regRun id last (RegEvent.invokeWrapper c ::
      List.replicate m RegEvent.deadlineElapse) =
      regStep id last regInit (RegEvent.invokeWrapper c) := by
    rw [regRun, List.foldl_cons]
    exact regFoldl_deadline_stable id last _ (by rw [hinvoked]) m
  refine ⟨rfl, rfl, ?_, ?_, ?_, ?_⟩
  · rw [hrunFired, hfired]
  · rw [hrunFired, hfired]
  · exact ⟨"hot update failed for module \"",
      "\". Last file processed: \"", "\".",
      by simp [failbackMessage, String.append_assoc]⟩
  · rw [hrunInvoked, hinvoked]

/-- C10: across any sequence of invocations of the export-wrapping function
and deadline ticks, the wrapped component is registered with the hot-loader
proxy registry exactly once if the function was ever invoked (and never
otherwise); every invocation — first or subsequent — cancels the deadline
timer and still returns one more wrapped higher-order component. -/
theorem C10_register_once (id last c : String) (evs pre : List RegEvent) :
    (regRun id last evs).registerCalls.length = min 1 (invokeCount evs) ∧
    (regRun id last evs).hocsReturned = invokeCount evs ∧
    (regRun id last
      (pre ++ [RegEvent.invokeWrapper c])).timer.armed = false ∧
    (regRun id last (pre ++ [RegEvent.invokeWrapper c])).hocsReturned =
      (regRun id last pre).hocsReturned + 1 := by
  refine ⟨?_, ?_, ?_, ?_⟩
  · have h := regFoldl_register_len id last evs regInit rfl
    simpa [regRun, regInit] using h
  · have h := regFoldl_hocs id last evs regInit
    simpa [regRun, regInit] using h
  · rw [regRun, List.foldl_append, List.foldl_cons, List.foldl_nil]
    exact regStep_invoke_timer id last _ c
  · rw [regRun, List.foldl_append, List.foldl_cons, List.foldl_nil, regRun]
    exact regStep_invoke_hocs id last _ c
